import Mathlib

/-!
Verification of the chat-log module (`backend/open_webui/models/chat_logs.py`
and `backend/open_webui/routers/chat_logs.py`) against its specification.

The record store is embedded as pure state-passing functions over an explicit
database value (a list of rows of the `chat_log` table); `int(time.time())` is
passed in as an explicit `now : Nat` argument.  Fallible operations return
`Option`/`Except` results paired with the successor database state.  The HTTP
router handlers are embedded as functions returning `Except PyExc`, where
`PyExc` models the Python exceptions that can cross the handler body
(`fastapi.HTTPException` and `AttributeError`), and the routers' blanket
`except Exception` clause is a wrapper turning any body exception into an
HTTP 500 `HTTPException`.
-/

/-- One message dict (`dict[str, str]`-shaped entry of the `messages` list);
the values are structurally opaque to this module, modelled as strings. -/
abbrev Message := List (String × String)

/-- Fields of the pydantic `ChatLogModel` (models/chat_logs.py lines 40-49)
and, identically, the columns of the `chat_log` table row (`ChatLog`,
lines 21-37): `conversation_id` (primary key), `user_id`, `model`, `messages`,
`response` (nullable), `created_at`, `updated_at`.  The ORM row and the
pydantic model carry the same typed fields, so a single structure embeds
both; `ChatLogModel.model_validate` on a well-typed row is the identity. -/
structure ChatLogModel where
  conversation_id : String
  user_id : String
  model : String
  messages : List Message
  response : Option String
  created_at : Nat
  updated_at : Nat
deriving DecidableEq, Repr

/-- The attribute names the pydantic `ChatLogModel` defines
(models/chat_logs.py lines 43-49).  Python attribute access on any other
name raises `AttributeError`; in particular `title` is not among them. -/
def chatLogModelFields : List String :=
  ["conversation_id", "user_id", "model", "messages", "response",
   "created_at", "updated_at"]

/-- The `chat_log` table: its rows in insertion order.  The schema declares
`conversation_id` as primary key, so the storage engine rejects a second row
with an existing `conversation_id`. -/
structure ChatLogDB where
  rows : List ChatLogModel
deriving DecidableEq, Repr

/-- Whether a row with this `conversation_id` exists (the primary-key
constraint consulted by the storage engine on insert). -/
def ChatLogDB.hasConv (db : ChatLogDB) (conversation_id : String) : Bool :=
  db.rows.any (fun r => r.conversation_id == conversation_id)

/-- Storage-engine failure signalled to the caller of `db.commit()`. -/
inductive DbError where
  | duplicateKey
deriving DecidableEq, Repr

namespace ChatLogs

/-- `ChatLogTable.create_chat_log` (models/chat_logs.py lines 53-80):
builds a `ChatLogModel` with `created_at = updated_at = int(time.time())`,
adds the row and commits.  The commit raises a duplicate-key integrity
error when a row with the same primary key `conversation_id` already
exists, leaving the table unchanged (the method has no exception handler,
so the error propagates); otherwise the new row is appended and returned. -/
def create_chat_log (db : ChatLogDB) (now : Nat)
    (conversation_id user_id model : String)
    (messages : List Message) (response : String) :
    Except DbError ChatLogModel × ChatLogDB :=
  let chat_log : ChatLogModel :=
    { conversation_id := conversation_id, user_id := user_id, model := model,
      messages := messages, response := some response,
      created_at := now, updated_at := now }
  if db.hasConv conversation_id then
    (.error .duplicateKey, db)
  else
    (.ok chat_log, ⟨db.rows ++ [chat_log]⟩)

/-- Ordering relation of `ORDER BY created_at DESC`. -/
def createdDescLe (a b : ChatLogModel) : Prop :=
  b.created_at ≤ a.created_at

/-- Ordering relation of `ORDER BY created_at ASC`. -/
def createdAscLe (a b : ChatLogModel) : Prop :=
  a.created_at ≤ b.created_at

instance : DecidableRel createdDescLe := fun a b =>
  inferInstanceAs (Decidable (b.created_at ≤ a.created_at))

instance : DecidableRel createdAscLe := fun a b =>
  inferInstanceAs (Decidable (a.created_at ≤ b.created_at))

instance : IsTotal ChatLogModel createdDescLe :=
  ⟨fun a b => (Nat.le_total b.created_at a.created_at).imp id id⟩

instance : IsTrans ChatLogModel createdDescLe :=
  ⟨fun _ _ _ hab hbc => Nat.le_trans hbc hab⟩

instance : IsTotal ChatLogModel createdAscLe :=
  ⟨fun a b => (Nat.le_total a.created_at b.created_at).imp id id⟩

instance : IsTrans ChatLogModel createdAscLe :=
  ⟨fun _ _ _ hab hbc => Nat.le_trans hab hbc⟩

/-- `ChatLogTable.get_chat_logs_by_user_id` (models/chat_logs.py lines
82-97): rows with the given `user_id`, ordered by `created_at`
descending, with `OFFSET skip LIMIT limit`. -/
def get_chat_logs_by_user_id (db : ChatLogDB) (user_id : String)
    (skip : Nat := 0) (limit : Nat := 50) : List ChatLogModel :=
  ((((db.rows.filter (fun r => r.user_id == user_id)).insertionSort
      createdDescLe).drop skip).take limit)

/-- `ChatLogTable.get_chat_logs_by_conversation_id` (models/chat_logs.py
lines 99-114): rows with the given `conversation_id`, ordered by
`created_at` ascending, with `OFFSET skip LIMIT limit`. -/
def get_chat_logs_by_conversation_id (db : ChatLogDB) (conversation_id : String)
    (skip : Nat := 0) (limit : Nat := 50) : List ChatLogModel :=
  ((((db.rows.filter (fun r => r.conversation_id == conversation_id)).insertionSort
      createdAscLe).drop skip).take limit)

/-- `ChatLogTable.get_chat_log_by_conversation_id` (models/chat_logs.py
lines 116-123): `db.get(ChatLog, conversation_id)` fetches the row by
primary key (the first — and under the key constraint only — row with that
`conversation_id`); when absent, `model_validate(None)` raises inside the
`try`, and the handler returns `None`. -/
def get_chat_log_by_conversation_id (db : ChatLogDB) (conversation_id : String) :
    Option ChatLogModel :=
  db.rows.find? (fun r => r.conversation_id == conversation_id)

/-- `ChatLogTable.delete_chat_log_by_conversation_id` (models/chat_logs.py
lines 125-133): deletes every row matching the `conversation_id` filter,
commits, and returns `True`; `False` only on a storage exception (none in
this pure model). -/
def delete_chat_log_by_conversation_id (db : ChatLogDB) (conversation_id : String) :
    Bool × ChatLogDB :=
  (true, ⟨db.rows.filter (fun r => !(r.conversation_id == conversation_id))⟩)

/-- The field overwrite performed by `update_chat_log` on the fetched row
(models/chat_logs.py lines 152-157): `user_id`, `model`, `messages`,
`response` and `updated_at` are replaced, everything else kept. -/
def applyUpdate (now : Nat) (user_id model : String) (messages : List Message)
    (response : String) (r : ChatLogModel) : ChatLogModel :=
  { r with user_id := user_id, model := model, messages := messages,
           response := some response, updated_at := now }

/-- Helper for `update_chat_log`: mutate the first row matching the
`conversation_id` filter in place (as `query.filter_by(...).first()`
followed by attribute assignment and commit does), returning the updated
model and the new row list; `(none, unchanged)` when no row matches. -/
def updateRows (now : Nat) (conversation_id user_id model : String)
    (messages : List Message) (response : String) :
    List ChatLogModel → Option ChatLogModel × List ChatLogModel
  | [] => (none, [])
  | r :: rest =>
    if r.conversation_id == conversation_id then
      let r2 := applyUpdate now user_id model messages response r
      (some r2, r2 :: rest)
    else
      let step := updateRows now conversation_id user_id model messages response rest
      (step.1, r :: step.2)

/-- `ChatLogTable.update_chat_log` (models/chat_logs.py lines 135-163):
fetches the first row with the given `conversation_id`; if none exists it
returns `None` without touching the table; otherwise it overwrites the
mutable fields, sets `updated_at = int(time.time())`, commits, and returns
the updated model. -/
def update_chat_log (db : ChatLogDB) (now : Nat)
    (conversation_id user_id model : String)
    (messages : List Message) (response : String) :
    Option ChatLogModel × ChatLogDB :=
  let step := updateRows now conversation_id user_id model messages response db.rows
  (step.1, ⟨step.2⟩)

end ChatLogs

/-- A Python exception crossing a router handler body:
`fastapi.HTTPException(status_code, detail)` or `AttributeError` on an
undefined attribute.  Both derive from `Exception`, so both are caught by
the handlers' blanket `except Exception` clauses. -/
inductive PyExc where
  | http (statusCode : Nat) (detail : String)
  | attributeError (attr : String)
deriving DecidableEq, Repr

/-- `str(e)` for the exceptions above, as interpolated into the handlers'
500 details. -/
def PyExc.str : PyExc → String
  | .http s d => toString s ++ ": " ++ d
  | .attributeError a => "object has no attribute " ++ a

/-- The routers' `try ... except Exception as e: raise HTTPException(500,
msg + str(e))` pattern: any exception escaping the body — including the
`HTTPException`s the body itself raises — is replaced by a 500. -/
def wrap500 {α : Type} (msg : String) (body : Except PyExc α) : Except PyExc α :=
  match body with
  | .ok a => .ok a
  | .error e => .error (.http 500 (msg ++ e.str))

/-- Python truthiness of the optional string filter fields: `None` and the
empty string are falsy. -/
def truthyS : Option String → Bool
  | none => false
  | some s => !(s == "")

/-- `ChatLogFilter` (routers/chat_logs.py lines 27-32). -/
structure ChatLogFilter where
  user_id : Option String := none
  conversation_id : Option String := none
  model : Option String := none
  limit : Nat := 50
  skip : Nat := 0
deriving DecidableEq, Repr

/-- `ChatLogResponse` (routers/chat_logs.py lines 13-21). -/
structure ChatLogResponse where
  conversation_id : String
  user_id : String
  user_name : String
  model : String
  messages : List Message
  response : Option String
  title : Option String := none
  created_at : Nat
deriving DecidableEq, Repr

/-- `ChatLogsResponse` envelope (routers/chat_logs.py lines 23-25). -/
structure ChatLogsResponse where
  data : List ChatLogResponse
  count : Nat
deriving DecidableEq, Repr

namespace Router

/-- Python attribute access `log.title` on a `ChatLogModel`: succeeds only
if `title` were among `chatLogModelFields`; it is not, so pydantic raises
`AttributeError`. -/
def titleAttr (_ : ChatLogModel) : Except PyExc (Option String) :=
  if chatLogModelFields.contains "title" then .ok none
  else .error (.attributeError "title")

/-- The list-endpoint response construction (routers/chat_logs.py lines
71-83 and 143-155): one `ChatLogResponse` per log, resolving `user_id` to
a display name through the user directory (`Users.get_users_by_user_ids`,
an external collaborator modelled as `users : String → Option String`)
with default `"Unknown User"`, and reading `log.title`.  The comprehension
evaluates left to right and the first exception propagates. -/
def buildResponseLogs (users : String → Option String) :
    List ChatLogModel → Except PyExc (List ChatLogResponse)
  | [] => .ok []
  | log :: rest =>
    match titleAttr log with
    | .error e => .error e
    | .ok title =>
      match buildResponseLogs users rest with
      | .error e => .error e
      | .ok tail =>
        .ok ({ conversation_id := log.conversation_id,
               user_id := log.user_id,
               user_name := (users log.user_id).getD "Unknown User",
               model := log.model,
               messages := log.messages,
               response := log.response,
               title := title,
               created_at := log.created_at } :: tail)

/-- The query branch of `GET /` (routers/chat_logs.py lines 45-61): by
`conversation_id` when that filter field is truthy, else the caller's own
logs by `user_id`. -/
def get_chat_logs_selected (db : ChatLogDB) (flt : ChatLogFilter)
    (callerId : String) : List ChatLogModel :=
  if truthyS flt.conversation_id then
    ChatLogs.get_chat_logs_by_conversation_id db (flt.conversation_id.getD "")
      flt.skip flt.limit
  else
    ChatLogs.get_chat_logs_by_user_id db callerId flt.skip flt.limit

/-- `GET /` handler `get_chat_logs` (routers/chat_logs.py lines 34-90), for
a verified caller: selects a page of logs, sets `count = len(logs)`, builds
the response list, and wraps any exception into a 500. -/
def get_chat_logs (db : ChatLogDB) (users : String → Option String)
    (flt : ChatLogFilter) (callerId : String) : Except PyExc ChatLogsResponse :=
  wrap500 "Failed to retrieve chat logs: "
    (match buildResponseLogs users (get_chat_logs_selected db flt callerId) with
     | .error e => .error e
     | .ok data => .ok ⟨data, (get_chat_logs_selected db flt callerId).length⟩)

/-- The query branch of `GET /admin` (routers/chat_logs.py lines 103-133):
by `conversation_id` if truthy, else by `user_id` if truthy, else the whole
table ordered by `created_at` descending with offset/limit; the page and
the `count` value (page length on the filtered branches, total row count
`db.query(ChatLog).count()` on the unfiltered one). -/
def get_all_chat_logs_selected (db : ChatLogDB) (flt : ChatLogFilter) :
    List ChatLogModel × Nat :=
  if truthyS flt.conversation_id then
    let logs := ChatLogs.get_chat_logs_by_conversation_id db
      (flt.conversation_id.getD "") flt.skip flt.limit
    (logs, logs.length)
  else if truthyS flt.user_id then
    let logs := ChatLogs.get_chat_logs_by_user_id db (flt.user_id.getD "")
      flt.skip flt.limit
    (logs, logs.length)
  else
    let logs := (((db.rows.insertionSort ChatLogs.createdDescLe).drop
      flt.skip).take flt.limit)
    (logs, db.rows.length)

/-- `GET /admin` handler `get_all_chat_logs` (routers/chat_logs.py lines
92-162), for an admin caller. -/
def get_all_chat_logs (db : ChatLogDB) (users : String → Option String)
    (flt : ChatLogFilter) : Except PyExc ChatLogsResponse :=
  wrap500 "Failed to retrieve chat logs: "
    (match buildResponseLogs users (get_all_chat_logs_selected db flt).1 with
     | .error e => .error e
     | .ok data => .ok ⟨data, (get_all_chat_logs_selected db flt).2⟩)

/-- `DELETE /admin` handler `delete_all_chat_logs` (routers/chat_logs.py
lines 164-194), for an admin caller: deletes by `conversation_id` if that
filter field is truthy, else by `user_id` if truthy, else every row;
returns `True` (the store's boolean on the conversation branch). -/
def delete_all_chat_logs (db : ChatLogDB) (flt : ChatLogFilter) :
    Bool × ChatLogDB :=
  if truthyS flt.conversation_id then
    ChatLogs.delete_chat_log_by_conversation_id db (flt.conversation_id.getD "")
  else if truthyS flt.user_id then
    (true, ⟨db.rows.filter (fun r => !(r.user_id == flt.user_id.getD ""))⟩)
  else
    (true, ⟨[]⟩)

/-- Body of `GET /{conversation_id}` (routers/chat_logs.py lines 202-231):
raises `HTTPException(404)` when the store returns no record, raises
`HTTPException(403)` when the record's `user_id` differs from the caller's
id, else resolves the owner's display name and returns the record (this
response sets no `title`, so no attribute error can occur here). -/
def get_one_body (db : ChatLogDB) (users : String → Option String)
    (conversation_id : String) (callerId : String) :
    Except PyExc ChatLogResponse :=
  match ChatLogs.get_chat_log_by_conversation_id db conversation_id with
  | none => .error (.http 404 "Chat log not found")
  | some log =>
    if !(log.user_id == callerId) then
      .error (.http 403 "Access denied to this chat log")
    else
      .ok { conversation_id := log.conversation_id,
            user_id := log.user_id,
            user_name := (users log.user_id).getD "Unknown User",
            model := log.model,
            messages := log.messages,
            response := log.response,
            created_at := log.created_at }

/-- `GET /{conversation_id}` endpoint `get_chat_log_by_conversation_id`
(routers/chat_logs.py lines 196-236): the body above inside the blanket
`try/except Exception`, which also catches the body's own 404/403
`HTTPException`s and re-raises them as 500. -/
def get_one (db : ChatLogDB) (users : String → Option String)
    (conversation_id : String) (callerId : String) :
    Except PyExc ChatLogResponse :=
  wrap500 "Failed to retrieve chat log: "
    (get_one_body db users conversation_id callerId)

/-- Body of `DELETE /{conversation_id}` (routers/chat_logs.py lines
244-259): 404 when absent, 403 when the caller is not the owner, else the
store delete (boolean result plus successor database). -/
def delete_one_body (db : ChatLogDB) (conversation_id : String)
    (callerId : String) : Except PyExc (Bool × ChatLogDB) :=
  match ChatLogs.get_chat_log_by_conversation_id db conversation_id with
  | none => .error (.http 404 "Chat log not found")
  | some log =>
    if !(log.user_id == callerId) then
      .error (.http 403 "Access denied to delete this chat log")
    else
      .ok (ChatLogs.delete_chat_log_by_conversation_id db conversation_id)

/-- `DELETE /{conversation_id}` endpoint `delete_chat_log_by_conversation_id`
(routers/chat_logs.py lines 238-264): the body inside the blanket
`try/except Exception`, which re-raises the 404/403 as 500. -/
def delete_one (db : ChatLogDB) (conversation_id : String)
    (callerId : String) : Except PyExc (Bool × ChatLogDB) :=
  wrap500 "Failed to delete chat log: "
    (delete_one_body db conversation_id callerId)

/-- The HTTP status of a handler outcome: the raised `HTTPException`'s
status code, or 200 on a normal return. -/
def statusOf {α : Type} : Except PyExc α → Nat
  | .ok _ => 200
  | .error (.http s _) => s
  | .error (.attributeError _) => 500

end Router

/-! ### Sample data used by concrete witnesses and counterexamples -/

/-- A sample stored row: conversation `c1` owned by `u1`, created at second 5. -/
def rowC1U1 : ChatLogModel :=
  { conversation_id := "c1", user_id := "u1", model := "m1",
    messages := [[("role", "user"), ("content", "hi")]],
    response := some "hello", created_at := 5, updated_at := 5 }

/-- A second sample row for `u1`, a different conversation in the same second. -/
def rowC2U1 : ChatLogModel :=
  { conversation_id := "c2", user_id := "u1", model := "m1",
    messages := [], response := some "y", created_at := 5, updated_at := 5 }

/-- A table holding only `rowC1U1`. -/
def dbOne : ChatLogDB := ⟨[rowC1U1]⟩

/-- A table holding two rows of `u1` that share a `created_at` second. -/
def dbTwo : ChatLogDB := ⟨[rowC1U1, rowC2U1]⟩

/-! ### Helper lemmas about the record store -/

/-- A falsified primary-key lookup: when no row carries the key, `find?`
over the rows is `none`. -/
theorem find?_conv_eq_none_of_hasConv_false (db : ChatLogDB) (cid : String)
    (h : db.hasConv cid = false) :
    db.rows.find? (fun r => r.conversation_id == cid) = none := by
  rw [List.find?_eq_none]
  exact List.any_eq_false.mp h

/-- `updateRows` on rows none of which match leaves them untouched and
reports no result. -/
theorem updateRows_of_no_match (now : Nat) (cid uid model : String)
    (msgs : List Message) (resp : String) :
    ∀ rows : List ChatLogModel, (∀ r ∈ rows, ¬(r.conversation_id == cid) = true) →
      ChatLogs.updateRows now cid uid model msgs resp rows = (none, rows)
  | [], _ => rfl
  | r :: rest, h => by
    have hr : ¬(r.conversation_id == cid) = true := h r (List.mem_cons_self r rest)
    have ih := updateRows_of_no_match now cid uid model msgs resp rest
      (fun x hx => h x (List.mem_cons_of_mem r hx))
    simp [ChatLogs.updateRows, hr, ih]

/-- `applyUpdate` keeps the row's `conversation_id`. -/
theorem applyUpdate_conversation_id (now : Nat) (uid model : String)
    (msgs : List Message) (resp : String) (r : ChatLogModel) :
    (ChatLogs.applyUpdate now uid model msgs resp r).conversation_id
      = r.conversation_id := rfl

/-- `updateRows` on rows whose first match (by `find?`) is `r` overwrites
exactly that row in place: the reported result is `applyUpdate ... r`, and
a subsequent `find?` for the same key returns the overwritten row. -/
theorem updateRows_spec (now : Nat) (cid uid model : String)
    (msgs : List Message) (resp : String) :
    ∀ (rows : List ChatLogModel) (r : ChatLogModel),
      rows.find? (fun x => x.conversation_id == cid) = some r →
      (ChatLogs.updateRows now cid uid model msgs resp rows).1
          = some (ChatLogs.applyUpdate now uid model msgs resp r)
      ∧ (ChatLogs.updateRows now cid uid model msgs resp rows).2.find?
          (fun x => x.conversation_id == cid)
          = some (ChatLogs.applyUpdate now uid model msgs resp r)
  | [], r, h => by simp at h
  | x :: rest, r, h => by
    by_cases hp : (x.conversation_id == cid) = true
    · rw [List.find?_cons_of_pos rest hp] at h
      cases h
      have heq : ChatLogs.updateRows now cid uid model msgs resp (x :: rest)
          = (some (ChatLogs.applyUpdate now uid model msgs resp x),
             ChatLogs.applyUpdate now uid model msgs resp x :: rest) := by
        simp [ChatLogs.updateRows, hp]
      have hp2 : ((ChatLogs.applyUpdate now uid model msgs resp x).conversation_id
          == cid) = true := by
        rw [applyUpdate_conversation_id]; exact hp
      rw [heq]
      exact ⟨rfl, List.find?_cons_of_pos (p := fun y : ChatLogModel => y.conversation_id == cid)
        rest hp2⟩
    · rw [List.find?_cons_of_neg rest hp] at h
      have ih := updateRows_spec now cid uid model msgs resp rest r h
      have heq : ChatLogs.updateRows now cid uid model msgs resp (x :: rest)
          = ((ChatLogs.updateRows now cid uid model msgs resp rest).1,
             x :: (ChatLogs.updateRows now cid uid model msgs resp rest).2) := by
        simp [ChatLogs.updateRows, hp]
      rw [heq]
      refine ⟨ih.1, ?_⟩
      show List.find? (fun y => y.conversation_id == cid)
        (x :: (ChatLogs.updateRows now cid uid model msgs resp rest).2)
        = some (ChatLogs.applyUpdate now uid model msgs resp r)
      rw [List.find?_cons_of_neg (p := fun y : ChatLogModel => y.conversation_id == cid) _ hp]
      exact ih.2

/-! ### Claims about the record store -/

/-- C2: for every conversation id that already has a record, create fails
with a duplicate-key error and leaves the table exactly as it was — it
never silently overwrites the existing row. -/
theorem create_duplicate_fails (db : ChatLogDB) (now : Nat)
    (cid uid model : String) (msgs : List Message) (resp : String)
    (h : db.hasConv cid = true) :
    (ChatLogs.create_chat_log db now cid uid model msgs resp).1
        = .error .duplicateKey
    ∧ (ChatLogs.create_chat_log db now cid uid model msgs resp).2 = db := by
  constructor <;> simp [ChatLogs.create_chat_log, h]

/-- Witness for C2 at a concrete table: `c1` exists in `dbOne`, so creating
`c1` again fails with the duplicate-key error and leaves `dbOne` unchanged. -/
theorem create_duplicate_fails_witness :
    dbOne.hasConv "c1" = true
    ∧ (ChatLogs.create_chat_log dbOne 6 "c1" "u2" "m2" [] "r2").1
        = .error .duplicateKey
    ∧ (ChatLogs.create_chat_log dbOne 6 "c1" "u2" "m2" [] "r2").2 = dbOne :=
  ⟨by decide, create_duplicate_fails dbOne 6 "c1" "u2" "m2" [] "r2" (by decide)⟩

/-- C3: for every valid creation with a fresh conversation id, create
returns a row whose fields equal the supplied values, with
`created_at = updated_at = now`, and an immediately following
`get_chat_log_by_conversation_id` on the successor table returns that same
record. -/
theorem create_fresh_then_get (db : ChatLogDB) (now : Nat)
    (cid uid model : String) (msgs : List Message) (resp : String)
    (h : db.hasConv cid = false) :
    ∃ rec : ChatLogModel,
      (ChatLogs.create_chat_log db now cid uid model msgs resp).1 = .ok rec
      ∧ rec.conversation_id = cid ∧ rec.user_id = uid ∧ rec.model = model
      ∧ rec.messages = msgs ∧ rec.response = some resp
      ∧ rec.created_at = now ∧ rec.updated_at = now
      ∧ ChatLogs.get_chat_log_by_conversation_id
          (ChatLogs.create_chat_log db now cid uid model msgs resp).2 cid
          = some rec := by
  refine ⟨{ conversation_id := cid, user_id := uid, model := model,
            messages := msgs, response := some resp,
            created_at := now, updated_at := now },
          ?_, rfl, rfl, rfl, rfl, rfl, rfl, rfl, ?_⟩
  · simp [ChatLogs.create_chat_log, h]
  · have hnone := find?_conv_eq_none_of_hasConv_false db cid h
    simp [ChatLogs.create_chat_log, h, ChatLogs.get_chat_log_by_conversation_id,
      List.find?_append, hnone]

/-- Witness for C3: creating `c1` in the empty table at second 5 and
reading it back. -/
theorem create_fresh_then_get_witness :
    (⟨[]⟩ : ChatLogDB).hasConv "c1" = false
    ∧ ∃ rec : ChatLogModel,
      (ChatLogs.create_chat_log ⟨[]⟩ 5 "c1" "u1" "m" [] "hi").1 = .ok rec
      ∧ rec.conversation_id = "c1" ∧ rec.user_id = "u1" ∧ rec.model = "m"
      ∧ rec.messages = [] ∧ rec.response = some "hi"
      ∧ rec.created_at = 5 ∧ rec.updated_at = 5
      ∧ ChatLogs.get_chat_log_by_conversation_id
          (ChatLogs.create_chat_log ⟨[]⟩ 5 "c1" "u1" "m" [] "hi").2 "c1"
          = some rec :=
  ⟨by decide, create_fresh_then_get ⟨[]⟩ 5 "c1" "u1" "m" [] "hi" (by decide)⟩

/-- C4: update on a conversation id with no record returns `none` and the
table is left exactly as it was — no record is created, none is changed. -/
theorem update_missing_is_noop (db : ChatLogDB) (now : Nat)
    (cid uid model : String) (msgs : List Message) (resp : String)
    (h : db.hasConv cid = false) :
    ChatLogs.update_chat_log db now cid uid model msgs resp = (none, db) := by
  have hall : ∀ r ∈ db.rows, ¬(r.conversation_id == cid) = true :=
    List.any_eq_false.mp h
  unfold ChatLogs.update_chat_log
  rw [updateRows_of_no_match now cid uid model msgs resp db.rows hall]

/-- Witness for C4: updating the absent `c9` in `dbOne` returns `none` and
leaves `dbOne` unchanged. -/
theorem update_missing_is_noop_witness :
    dbOne.hasConv "c9" = false
    ∧ ChatLogs.update_chat_log dbOne 7 "c9" "u2" "m2" [] "r2" = (none, dbOne) :=
  ⟨by decide, update_missing_is_noop dbOne 7 "c9" "u2" "m2" [] "r2" (by decide)⟩

/-- C5 counterexample: an update landing in the same second as the
creation.  `rowC1U1` was created at second 5; updating conversation `c1`
at `now = 5` and fetching it back yields `updated_at = 5 = created_at`,
so `updated_at` is NOT strictly greater than `created_at` as the claim
requires. -/
theorem update_same_second_not_strict :
    ChatLogs.get_chat_log_by_conversation_id dbOne "c1" = some rowC1U1
    ∧ ChatLogs.get_chat_log_by_conversation_id
        (ChatLogs.update_chat_log dbOne 5 "c1" "u2" "m2" [] "r2").2 "c1"
      = some (ChatLogs.applyUpdate 5 "u2" "m2" [] "r2" rowC1U1)
    ∧ (ChatLogs.applyUpdate 5 "u2" "m2" [] "r2" rowC1U1).updated_at
      = (ChatLogs.applyUpdate 5 "u2" "m2" [] "r2" rowC1U1).created_at
    ∧ ¬ (ChatLogs.applyUpdate 5 "u2" "m2" [] "r2" rowC1U1).created_at
      < (ChatLogs.applyUpdate 5 "u2" "m2" [] "r2" rowC1U1).updated_at := by
  refine ⟨by decide, by decide, by decide, by decide⟩

/-- C5 as amended: for every existing record, update followed by
`get_chat_log_by_conversation_id` returns a record carrying all the new
field values, with `created_at` unchanged and `updated_at` set to the
update time `now` (so it equals, rather than strictly exceeds,
`created_at` when the update falls in the creation second). -/
theorem update_then_get (db : ChatLogDB) (now : Nat)
    (cid uid model : String) (msgs : List Message) (resp : String)
    (r : ChatLogModel)
    (h : ChatLogs.get_chat_log_by_conversation_id db cid = some r) :
    ∃ r2 : ChatLogModel,
      (ChatLogs.update_chat_log db now cid uid model msgs resp).1 = some r2
      ∧ r2.user_id = uid ∧ r2.model = model ∧ r2.messages = msgs
      ∧ r2.response = some resp
      ∧ r2.created_at = r.created_at ∧ r2.updated_at = now
      ∧ ChatLogs.get_chat_log_by_conversation_id
          (ChatLogs.update_chat_log db now cid uid model msgs resp).2 cid
          = some r2 := by
  obtain ⟨h1, h2⟩ := updateRows_spec now cid uid model msgs resp db.rows r h
  exact ⟨ChatLogs.applyUpdate now uid model msgs resp r,
         h1, rfl, rfl, rfl, rfl, rfl, rfl, h2⟩

/-- Witness for amended C5: updating the existing `c1` at second 9 and
reading it back. -/
theorem update_then_get_witness :
    ChatLogs.get_chat_log_by_conversation_id dbOne "c1" = some rowC1U1
    ∧ ∃ r2 : ChatLogModel,
      (ChatLogs.update_chat_log dbOne 9 "c1" "u2" "m2" [] "r2").1 = some r2
      ∧ r2.user_id = "u2" ∧ r2.model = "m2" ∧ r2.messages = []
      ∧ r2.response = some "r2"
      ∧ r2.created_at = rowC1U1.created_at ∧ r2.updated_at = 9
      ∧ ChatLogs.get_chat_log_by_conversation_id
          (ChatLogs.update_chat_log dbOne 9 "c1" "u2" "m2" [] "r2").2 "c1"
          = some r2 :=
  ⟨by decide, update_then_get dbOne 9 "c1" "u2" "m2" [] "r2" rowC1U1 (by decide)⟩

/-- C10: the store delete returns `True` whenever its transaction commits
— which in this failure-free model is always — including when no record
with the conversation id exists, in which case the table is also left
unchanged; the boolean cannot distinguish the two situations. -/
theorem delete_always_true (db : ChatLogDB) (cid : String) :
    (ChatLogs.delete_chat_log_by_conversation_id db cid).1 = true
    ∧ (db.hasConv cid = false →
        (ChatLogs.delete_chat_log_by_conversation_id db cid).2 = db) := by
  refine ⟨rfl, fun h => ?_⟩
  have hall : ∀ r ∈ db.rows, (!(r.conversation_id == cid)) = true := by
    intro r hr
    have := List.any_eq_false.mp h r hr
    simpa using this
  show (⟨db.rows.filter fun r => !(r.conversation_id == cid)⟩ : ChatLogDB) = db
  rw [List.filter_eq_self.mpr hall]

/-- Witness for C10: deleting the absent `zz` from `dbOne` still returns
`True`, and the table is untouched. -/
theorem delete_always_true_witness :
    (ChatLogs.delete_chat_log_by_conversation_id dbOne "zz").1 = true
    ∧ (ChatLogs.delete_chat_log_by_conversation_id dbOne "zz").2 = dbOne :=
  ⟨(delete_always_true dbOne "zz").1,
   (delete_always_true dbOne "zz").2 (by decide)⟩

/-! ### Ordering of the list queries -/

/-- Under the primary-key constraint (pairwise-distinct `conversation_id`
column), at most one row matches a `conversation_id` filter. -/
theorem filter_conv_length_le_one (cid : String) :
    ∀ rows : List ChatLogModel,
      (rows.map ChatLogModel.conversation_id).Nodup →
      (rows.filter (fun r => r.conversation_id == cid)).length ≤ 1
  | [], _ => by simp
  | x :: rest, h => by
    rw [List.map_cons, List.nodup_cons] at h
    by_cases hp : (x.conversation_id == cid) = true
    · rw [List.filter_cons_of_pos
        (p := fun r : ChatLogModel => r.conversation_id == cid) hp]
      have hnil : rest.filter (fun r => r.conversation_id == cid) = [] := by
        rw [List.filter_eq_nil_iff]
        intro a ha hc
        apply h.1
        rw [List.mem_map]
        have hac : a.conversation_id = cid := by simpa using hc
        have hxc : x.conversation_id = cid := by simpa using hp
        exact ⟨a, ha, by rw [hac, hxc]⟩
      simp [hnil]
    · rw [List.filter_cons_of_neg
        (p := fun r : ChatLogModel => r.conversation_id == cid) hp]
      exact filter_conv_length_le_one cid rest h.2

/-- A list of at most one element is vacuously pairwise-related. -/
theorem pairwise_of_length_le_one {α : Type} {R : α → α → Prop} :
    ∀ l : List α, l.length ≤ 1 → l.Pairwise R
  | [], _ => List.Pairwise.nil
  | [_], _ => by simp
  | _ :: _ :: _, h => by simp at h

/-- C6 counterexample: two records of user `u1` created in the same second
(`dbTwo`).  The page returned by `get_chat_logs_by_user_id` is NOT in
strictly descending `created_at` order (the tie makes strictness fail), so
the claim as stated is false at this input. -/
theorem list_order_not_strict :
    ¬ List.Pairwise (fun a b : ChatLogModel => b.created_at < a.created_at)
        (ChatLogs.get_chat_logs_by_user_id dbTwo "u1" 0 50) := by decide

/-- C6 as amended: `get_chat_logs_by_user_id` returns its page in
descending — non-strictly, since several rows can share a `created_at`
second — `created_at` order, and `get_chat_logs_by_conversation_id`
returns its page in ascending order, strict under the primary-key
constraint because at most one row matches; both apply `skip` as offset
into the ordered matching rows and `limit` as maximal page size. -/
theorem list_pages_ordered (db : ChatLogDB) (uid cid : String)
    (skip limit : Nat)
    (hpk : (db.rows.map ChatLogModel.conversation_id).Nodup) :
    List.Pairwise ChatLogs.createdDescLe
        (ChatLogs.get_chat_logs_by_user_id db uid skip limit)
    ∧ ChatLogs.get_chat_logs_by_user_id db uid skip limit
        = (ChatLogs.get_chat_logs_by_user_id db uid 0 (skip + limit)).drop skip
    ∧ (ChatLogs.get_chat_logs_by_user_id db uid skip limit).length ≤ limit
    ∧ List.Pairwise (fun a b : ChatLogModel => a.created_at < b.created_at)
        (ChatLogs.get_chat_logs_by_conversation_id db cid skip limit)
    ∧ ChatLogs.get_chat_logs_by_conversation_id db cid skip limit
        = (ChatLogs.get_chat_logs_by_conversation_id db cid 0 (skip + limit)).drop
            skip
    ∧ (ChatLogs.get_chat_logs_by_conversation_id db cid skip limit).length
        ≤ limit := by
  refine ⟨?_, ?_, ?_, ?_, ?_, ?_⟩
  · exact List.Pairwise.sublist
      ((List.take_sublist _ _).trans (List.drop_sublist _ _))
      (List.sorted_insertionSort ChatLogs.createdDescLe _)
  · unfold ChatLogs.get_chat_logs_by_user_id
    rw [List.drop_zero, List.take_drop]
  · exact List.length_take_le _ _
  · apply pairwise_of_length_le_one
    have h1 := List.Sublist.length_le
      ((List.take_sublist limit (((db.rows.filter
          (fun r => r.conversation_id == cid)).insertionSort
          ChatLogs.createdAscLe).drop skip)).trans (List.drop_sublist _ _))
    rw [List.length_insertionSort] at h1
    exact le_trans h1 (filter_conv_length_le_one cid db.rows hpk)
  · unfold ChatLogs.get_chat_logs_by_conversation_id
    rw [List.drop_zero, List.take_drop]
  · exact List.length_take_le _ _

/-! ### Helper lemmas about the router handlers -/

/-- Reading `log.title` always raises the `AttributeError`: `title` is not
among the `ChatLogModel` fields. -/
theorem titleAttr_eq (log : ChatLogModel) :
    Router.titleAttr log = .error (.attributeError "title") := rfl

/-- Building the list response for a nonempty page fails at the very first
record's `title` access. -/
theorem buildResponseLogs_cons (users : String → Option String)
    (log : ChatLogModel) (rest : List ChatLogModel) :
    Router.buildResponseLogs users (log :: rest)
      = .error (.attributeError "title") := rfl

/-- The list response construction succeeds only on the empty page, and
then returns the empty data list. -/
theorem buildResponseLogs_ok (users : String → Option String) :
    ∀ (logs : List ChatLogModel) (data : List ChatLogResponse),
      Router.buildResponseLogs users logs = .ok data → logs = [] ∧ data = []
  | [], data, h => by
    have h2 : (Except.ok [] : Except PyExc (List ChatLogResponse))
        = .ok data := h
    exact ⟨rfl, (((Except.ok.injEq _ _).mp h2)).symm⟩
  | log :: rest, _, h => by
    rw [buildResponseLogs_cons] at h
    simp at h

/-- `GET /` characterised by its selected page: an empty page yields the
`⟨[], 0⟩` envelope, a nonempty one the 500 caused by the `title`
`AttributeError`. -/
theorem get_chat_logs_eq (db : ChatLogDB) (users : String → Option String)
    (flt : ChatLogFilter) (callerId : String) :
    Router.get_chat_logs db users flt callerId
      = match Router.get_chat_logs_selected db flt callerId with
        | [] => .ok ⟨[], 0⟩
        | _ :: _ => .error (.http 500 ("Failed to retrieve chat logs: "
            ++ (PyExc.attributeError "title").str)) := by
  unfold Router.get_chat_logs wrap500
  cases hsel : Router.get_chat_logs_selected db flt callerId with
  | nil => rfl
  | cons a l => rfl

/-- `GET /admin` characterised by its selected page and count. -/
theorem get_all_chat_logs_eq (db : ChatLogDB) (users : String → Option String)
    (flt : ChatLogFilter) :
    Router.get_all_chat_logs db users flt
      = match (Router.get_all_chat_logs_selected db flt).1 with
        | [] => .ok ⟨[], (Router.get_all_chat_logs_selected db flt).2⟩
        | _ :: _ => .error (.http 500 ("Failed to retrieve chat logs: "
            ++ (PyExc.attributeError "title").str)) := by
  unfold Router.get_all_chat_logs wrap500
  cases hsel : (Router.get_all_chat_logs_selected db flt).1 with
  | nil => rfl
  | cons a l => rfl

/-- On the filtered admin branches the reported count is the page length. -/
theorem get_all_selected_snd_filtered (db : ChatLogDB) (flt : ChatLogFilter)
    (h : (truthyS flt.conversation_id || truthyS flt.user_id) = true) :
    (Router.get_all_chat_logs_selected db flt).2
      = (Router.get_all_chat_logs_selected db flt).1.length := by
  unfold Router.get_all_chat_logs_selected
  rcases Bool.or_eq_true_iff.mp h with h1 | h2
  · simp [h1]
  · by_cases h1 : truthyS flt.conversation_id <;> simp [h1, h2]

/-- On the unfiltered admin branch the reported count is the total row
count of the table. -/
theorem get_all_selected_snd_unfiltered (db : ChatLogDB) (flt : ChatLogFilter)
    (h1 : truthyS flt.conversation_id = false)
    (h2 : truthyS flt.user_id = false) :
    (Router.get_all_chat_logs_selected db flt).2 = db.rows.length := by
  unfold Router.get_all_chat_logs_selected
  simp [h1, h2]

/-! ### Claims about the router -/

/-- C1 is a code bug: the spec (and the body's own `raise HTTPException`
calls) say `GET /{conversation_id}` and `DELETE /{conversation_id}` answer
404 for a missing record and 403 for a caller who is not the owner, but
the surrounding `except Exception` clause catches those very
`HTTPException`s and re-raises them as 500.  At the concrete inputs — an
empty table queried for `c1`, and `dbOne`'s record `c1` (owned by `u1`)
accessed by `u2` — the body raises 404 resp. 403, yet the endpoint
responds 500. -/
theorem single_endpoints_return_500 :
    Router.statusOf (Router.get_one_body ⟨[]⟩ (fun _ => none) "c1" "u1") = 404
    ∧ Router.statusOf (Router.get_one ⟨[]⟩ (fun _ => none) "c1" "u1") = 500
    ∧ Router.statusOf (Router.get_one_body dbOne (fun _ => none) "c1" "u2") = 403
    ∧ Router.statusOf (Router.get_one dbOne (fun _ => none) "c1" "u2") = 500
    ∧ Router.statusOf (Router.delete_one_body ⟨[]⟩ "c1" "u1") = 404
    ∧ Router.statusOf (Router.delete_one ⟨[]⟩ "c1" "u1") = 500
    ∧ Router.statusOf (Router.delete_one_body dbOne "c1" "u2") = 403
    ∧ Router.statusOf (Router.delete_one dbOne "c1" "u2") = 500 := by decide

/-- C7: in every successful list envelope the `count` field equals the
length of the returned data page, except on the admin endpoint when
neither the `conversation_id` nor the `user_id` filter is set (truthy),
where `count` is the total number of rows in the table. -/
theorem envelope_count (db : ChatLogDB) (users : String → Option String)
    (flt : ChatLogFilter) (callerId : String) :
    (∀ env : ChatLogsResponse,
      Router.get_chat_logs db users flt callerId = .ok env →
      env.count = env.data.length)
    ∧ (∀ env : ChatLogsResponse,
      Router.get_all_chat_logs db users flt = .ok env →
      ((truthyS flt.conversation_id || truthyS flt.user_id) = true →
        env.count = env.data.length)
      ∧ ((truthyS flt.conversation_id || truthyS flt.user_id) = false →
        env.count = db.rows.length)) := by
  constructor
  · intro env h
    rw [get_chat_logs_eq] at h
    cases hsel : Router.get_chat_logs_selected db flt callerId with
    | nil =>
      rw [hsel] at h
      have h2 : (⟨[], 0⟩ : ChatLogsResponse) = env := (Except.ok.injEq _ _).mp h
      rw [← h2]
      rfl
    | cons a l =>
      rw [hsel] at h
      simp at h
  · intro env h
    rw [get_all_chat_logs_eq] at h
    cases hsel : (Router.get_all_chat_logs_selected db flt).1 with
    | nil =>
      rw [hsel] at h
      have h2 : (⟨[], (Router.get_all_chat_logs_selected db flt).2⟩
          : ChatLogsResponse) = env := (Except.ok.injEq _ _).mp h
      constructor
      · intro hf
        rw [← h2]
        show (Router.get_all_chat_logs_selected db flt).2 = ([] : List ChatLogResponse).length
        rw [get_all_selected_snd_filtered db flt hf, hsel]
        rfl
      · intro hf
        rw [Bool.or_eq_false_iff] at hf
        rw [← h2]
        show (Router.get_all_chat_logs_selected db flt).2 = db.rows.length
        exact get_all_selected_snd_unfiltered db flt hf.1 hf.2
    | cons a l =>
      rw [hsel] at h
      simp at h

/-- Witness for C7: the user endpoint on the empty table returns the
`⟨[], 0⟩` envelope with matching count, and the unfiltered admin endpoint
on `dbOne` with `skip = 1` returns an empty page whose count 1 is the
total row count. -/
theorem envelope_count_witness :
    ((⟨[], 0⟩ : ChatLogsResponse).count
        = (⟨[], 0⟩ : ChatLogsResponse).data.length)
    ∧ ((⟨[], 1⟩ : ChatLogsResponse).count = dbOne.rows.length) :=
  ⟨(envelope_count ⟨[]⟩ (fun _ => none) {} "u1").1 ⟨[], 0⟩ rfl,
   ((envelope_count dbOne (fun _ => none) { skip := 1 } "u1").2 ⟨[], 1⟩
      rfl).2 (by decide)⟩

/-- C9: whenever the page selected by a list request (`GET /` or
`GET /admin`) is nonempty, building the response reads the undefined
`title` attribute and the request fails with HTTP 500 (the detail text
carrying the `AttributeError`); an empty page succeeds. -/
theorem list_title_500 (db : ChatLogDB) (users : String → Option String)
    (flt : ChatLogFilter) (callerId : String) :
    (Router.get_chat_logs_selected db flt callerId ≠ [] →
      Router.get_chat_logs db users flt callerId
        = .error (.http 500 ("Failed to retrieve chat logs: "
            ++ (PyExc.attributeError "title").str)))
    ∧ (Router.get_chat_logs_selected db flt callerId = [] →
      Router.get_chat_logs db users flt callerId = .ok ⟨[], 0⟩)
    ∧ ((Router.get_all_chat_logs_selected db flt).1 ≠ [] →
      Router.get_all_chat_logs db users flt
        = .error (.http 500 ("Failed to retrieve chat logs: "
            ++ (PyExc.attributeError "title").str)))
    ∧ ((Router.get_all_chat_logs_selected db flt).1 = [] →
      Router.get_all_chat_logs db users flt
        = .ok ⟨[], (Router.get_all_chat_logs_selected db flt).2⟩) := by
  refine ⟨fun h => ?_, fun h => ?_, fun h => ?_, fun h => ?_⟩
  · rw [get_chat_logs_eq]
    cases hsel : Router.get_chat_logs_selected db flt callerId with
    | nil => exact absurd hsel h
    | cons a l => rfl
  · rw [get_chat_logs_eq, h]
  · rw [get_all_chat_logs_eq]
    cases hsel : (Router.get_all_chat_logs_selected db flt).1 with
    | nil => exact absurd hsel h
    | cons a l => rfl
  · rw [get_all_chat_logs_eq, h]

/-- Witness for C9: on `dbOne` with the default filter, owner `u1`'s list
request selects a nonempty page and gets the 500, while `u9` (who has no
records) selects the empty page and succeeds. -/
theorem list_title_500_witness :
    (Router.get_chat_logs_selected dbOne {} "u1" ≠ []
      ∧ Router.get_chat_logs dbOne (fun _ => none) {} "u1"
          = .error (.http 500 ("Failed to retrieve chat logs: "
              ++ (PyExc.attributeError "title").str)))
    ∧ (Router.get_chat_logs_selected dbOne {} "u9" = []
      ∧ Router.get_chat_logs dbOne (fun _ => none) {} "u9" = .ok ⟨[], 0⟩) :=
  ⟨⟨by decide, (list_title_500 dbOne (fun _ => none) {} "u1").1 (by decide)⟩,
   ⟨by decide, (list_title_500 dbOne (fun _ => none) {} "u9").2.1 (by decide)⟩⟩

/-- C8: the admin bulk delete consults its filter fields in priority
order.  With a truthy `conversation_id` exactly the rows of that
conversation disappear; otherwise with a truthy `user_id` exactly that
user's rows disappear; otherwise every row is deleted. -/
theorem admin_delete_priority (db : ChatLogDB) (flt : ChatLogFilter) :
    (truthyS flt.conversation_id = true →
      ∀ r : ChatLogModel,
        r ∈ (Router.delete_all_chat_logs db flt).2.rows ↔
          r ∈ db.rows ∧ ¬ r.conversation_id = flt.conversation_id.getD "")
    ∧ (truthyS flt.conversation_id = false → truthyS flt.user_id = true →
      ∀ r : ChatLogModel,
        r ∈ (Router.delete_all_chat_logs db flt).2.rows ↔
          r ∈ db.rows ∧ ¬ r.user_id = flt.user_id.getD "")
    ∧ (truthyS flt.conversation_id = false → truthyS flt.user_id = false →
      (Router.delete_all_chat_logs db flt).2.rows = []) := by
  refine ⟨fun h1 r => ?_, fun h1 h2 r => ?_, fun h1 h2 => ?_⟩
  · simp [Router.delete_all_chat_logs, h1,
      ChatLogs.delete_chat_log_by_conversation_id, List.mem_filter]
  · simp [Router.delete_all_chat_logs, h1, h2, List.mem_filter]
  · simp [Router.delete_all_chat_logs, h1, h2]

/-- Witness for C8: deleting conversation `c1` from `dbTwo` keeps
`rowC2U1` (whose conversation is `c2`), as the membership equivalence at
that row states. -/
theorem admin_delete_priority_witness :
    rowC2U1 ∈ (Router.delete_all_chat_logs dbTwo
        { conversation_id := some "c1" }).2.rows
      ↔ rowC2U1 ∈ dbTwo.rows ∧ ¬ rowC2U1.conversation_id
          = (({ conversation_id := some "c1" }
              : ChatLogFilter).conversation_id.getD "") :=
  (admin_delete_priority dbTwo { conversation_id := some "c1" }).1
    (by decide) rowC2U1

/-- Witness for amended C6 on `dbTwo` (whose `conversation_id` column is
duplicate-free), user `u1` and conversation `c1`. -/
theorem list_pages_ordered_witness :
    (dbTwo.rows.map ChatLogModel.conversation_id).Nodup
    ∧ (List.Pairwise ChatLogs.createdDescLe
        (ChatLogs.get_chat_logs_by_user_id dbTwo "u1" 0 50)
      ∧ ChatLogs.get_chat_logs_by_user_id dbTwo "u1" 0 50
          = (ChatLogs.get_chat_logs_by_user_id dbTwo "u1" 0 (0 + 50)).drop 0
      ∧ (ChatLogs.get_chat_logs_by_user_id dbTwo "u1" 0 50).length ≤ 50
      ∧ List.Pairwise (fun a b : ChatLogModel => a.created_at < b.created_at)
          (ChatLogs.get_chat_logs_by_conversation_id dbTwo "c1" 0 50)
      ∧ ChatLogs.get_chat_logs_by_conversation_id dbTwo "c1" 0 50
          = (ChatLogs.get_chat_logs_by_conversation_id dbTwo "c1" 0 (0 + 50)).drop 0
      ∧ (ChatLogs.get_chat_logs_by_conversation_id dbTwo "c1" 0 50).length ≤ 50) :=
  ⟨by decide, list_pages_ordered dbTwo "u1" "c1" 0 50 (by decide)⟩

